import Mathlib

/-
Verification of the social-engager workflow: a shallow embedding of the
guardrail validators, the posting tool and the retry controller of the
repository, together with proofs of the behavioural claims about them.

Python strings are modelled as Lean String values (lists of characters);
the regular-expression patterns of the keyword blocklist, which all have
the shape word-boundary alternation word-boundary with the IGNORECASE
flag, are modelled by an explicit case-insensitive word-boundary search
over the alternatives.  External collaborators (the LLM validators, the
trend-discovery agent, the X client) are modelled as Except-valued
oracles: an .error value stands for an exception raised by the
collaborator.  Side effects of the posting tool (audit-log writes and
live create_tweet calls) are modelled as an explicit effect list.
-/

namespace SocialEngager

/-- Whitespace characters stripped by the Python str.strip method:
space, tab, newline, carriage return, vertical tab, form feed. -/
def pyIsSpace (c : Char) : Bool :=
  decide (c = ' ') || decide (c = Char.ofNat 9) || decide (c = Char.ofNat 10) ||
  decide (c = Char.ofNat 13) || decide (c = Char.ofNat 11) || decide (c = Char.ofNat 12)

/-- Python regex word character (ASCII fragment): letter, digit or underscore. -/
def wordChar (c : Char) : Bool :=
  c.isAlphanum || decide (c = '_')

/-- Lower-casing of a character list, modelling the Python str.lower method
on the ASCII texts the blocklist works with. -/
def lowerList (l : List Char) : List Char :=
  l.map Char.toLower

/-- The pattern list occurs at the front of the text list (exact characters). -/
def startsWithList : List Char → List Char → Bool
  | [], _ => true
  | _ :: _, [] => false
  | p :: ps, t :: ts => decide (p = t) && startsWithList ps ts

/-- The pattern list occurs contiguously somewhere in the text list,
modelling the Python substring test (the in operator on str). -/
def occursIn (p : List Char) : List Char → Bool
  | [] => startsWithList p []
  | t :: ts => startsWithList p (t :: ts) || occursIn p ts

/-- Case-insensitively match the word w at the front of the text;
on success return the rest of the text after the match. -/
def matchEnd : List Char → List Char → Option (List Char)
  | [], t => some t
  | _ :: _, [] => none
  | w :: ws, t :: ts => if w.toLower = t.toLower then matchEnd ws ts else none

/-- The word w matches case-insensitively at the front of the text and is
followed by a word boundary (end of text or a non-word character). -/
def wordHere (w t : List Char) : Bool :=
  match matchEnd w t with
  | none => false
  | some [] => true
  | some (c :: _) => !wordChar c

/-- Search for the word w at every position of the text, requiring a word
boundary on the left (tracked by prevIsWord) and on the right.  This is the
semantics of re.search for a pattern word-boundary w word-boundary with
re.IGNORECASE, for the blocklist words, which all begin and end in word
characters. -/
def searchWord (w : List Char) : Bool → List Char → Bool
  | _, [] => false
  | prevIsWord, c :: ts =>
    (!prevIsWord && wordHere w (c :: ts)) || searchWord w (wordChar c) ts

/-- A compiled blocklist pattern: the raw regex source (used in the report
message) and the list of alternative words between the word boundaries. -/
structure BlockedPattern where
  raw : String
  words : List String
deriving DecidableEq, Repr

/-- re.search of a blocklist pattern against a text: some alternative word
occurs at some position with word boundaries on both sides. -/
def patternSearch (pat : BlockedPattern) (t : List Char) : Bool :=
  pat.words.any fun w => searchWord w.data false t

/-- The BLOCKED_PATTERNS list of guardrails/keyword_filter.py: each entry
keeps the raw regex source and its alternation words. -/
def BLOCKED_PATTERNS : List BlockedPattern :=
  [ { raw := "\\b(politic|politician|election|vote|voting|ballot|campaign|democrat|republican|liberal|conservative)\\b",
      words := ["politic", "politician", "election", "vote", "voting", "ballot",
                "campaign", "democrat", "republican", "liberal", "conservative"] },
    { raw := "\\b(congress|senate|parliament|president|prime minister|government policy)\\b",
      words := ["congress", "senate", "parliament", "president", "prime minister",
                "government policy"] },
    { raw := "\\b(left-wing|right-wing|partisan|bipartisan)\\b",
      words := ["left-wing", "right-wing", "partisan", "bipartisan"] },
    { raw := "\\b(religious|religion|church|mosque|temple|synagogue|bible|quran|torah)\\b",
      words := ["religious", "religion", "church", "mosque", "temple", "synagogue",
                "bible", "quran", "torah"] },
    { raw := "\\b(christian|muslim|jewish|hindu|buddhist|atheist)\\b",
      words := ["christian", "muslim", "jewish", "hindu", "buddhist", "atheist"] },
    { raw := "\\b(controversial|scandal|controversy|outrage|backlash)\\b",
      words := ["controversial", "scandal", "controversy", "outrage", "backlash"] },
    { raw := "\\b(lawsuit|sued|suing|legal action|court case)\\b",
      words := ["lawsuit", "sued", "suing", "legal action", "court case"] },
    { raw := "\\b(fired|layoff|layoffs|downsizing|job cuts)\\b",
      words := ["fired", "layoff", "layoffs", "downsizing", "job cuts"] },
    { raw := "\\b(bankrupt|bankruptcy|collapse|failure|crashed)\\b",
      words := ["bankrupt", "bankruptcy", "collapse", "failure", "crashed"] },
    { raw := "\\b(hate|hating|hatred|racist|racism|sexist|sexism)\\b",
      words := ["hate", "hating", "hatred", "racist", "racism", "sexist", "sexism"] },
    { raw := "\\b(war|warfare|military strike|bombing|attack)\\b",
      words := ["war", "warfare", "military strike", "bombing", "attack"] },
    { raw := "\\b(damn|hell|crap)\\b",
      words := ["damn", "hell", "crap"] },
    { raw := "\\b(dangerous|deadly|catastrophic|apocalyptic|doomsday)\\b",
      words := ["dangerous", "deadly", "catastrophic", "apocalyptic", "doomsday"] },
    { raw := "\\b(threat|threatening|menace|peril)\\b",
      words := ["threat", "threatening", "menace", "peril"] } ]

/-- The BLOCKED_PHRASES list of guardrails/keyword_filter.py: exact
phrases, matched case-insensitively as substrings. -/
def BLOCKED_PHRASES : List String :=
  [ "fake news", "deep state", "conspiracy theory", "culture war",
    "woke agenda", "cancel culture", "big tech censorship",
    "mainstream media", "political correctness" ]

/-- check_keyword_blocklist of guardrails/keyword_filter.py: an empty text
is clean; otherwise collect, in order, a report for every regex pattern
that matches (Pattern: raw source) and then for every phrase whose
lower-casing is a substring of the lower-cased text (Phrase: phrase);
the text is clean iff the collected report list is empty. -/
def check_keyword_blocklist (text : String) : Bool × List String :=
  if text.data.isEmpty then (true, [])
  else
    let patternHits := BLOCKED_PATTERNS.filterMap fun pat =>
      if patternSearch pat text.data then some ("Pattern: " ++ pat.raw) else none
    let phraseHits := BLOCKED_PHRASES.filterMap fun p =>
      if occursIn (lowerList p.data) (lowerList text.data) then some ("Phrase: " ++ p) else none
    let matched := patternHits ++ phraseHits
    (matched.isEmpty, matched)

/-- check_all_filters of guardrails/keyword_filter.py: delegates to
check_keyword_blocklist. -/
def check_all_filters (text : String) : Bool × List String :=
  check_keyword_blocklist text

/-- The Python truthiness test used by the guards of moderation.py and
content_validator.py: not text or not text.strip() holds exactly when
every character of the text is whitespace (including the empty text). -/
def pyBlank (text : String) : Bool :=
  text.data.all pyIsSpace

/-- The structured answer of the moderation collaborator
(class ModerationCheck of guardrails/moderation.py). -/
structure ModerationCheck where
  is_safe : Bool
  flagged_categories : List String
deriving DecidableEq, Repr

/-- check_content_safety of guardrails/moderation.py: blank text passes
trivially; otherwise the external moderation collaborator is consulted,
and an exception from it yields the fail-closed result
(False, [moderation_error message]). -/
def check_content_safety (text : String)
    (collab : Except String ModerationCheck) : Bool × List String :=
  if pyBlank text then (true, [])
  else
    match collab with
    | .ok r => (r.is_safe, r.flagged_categories)
    | .error e => (false, ["moderation_error: " ++ e])

/-- The structured answer of the content-validation collaborator
(class ContentValidationResult of guardrails/content_validator.py). -/
structure ContentValidationResult where
  is_on_topic : Bool
  detected_category : String
  detected_sentiment : String
  is_appropriate : Bool
  concerns : List String
  confidence : Nat
deriving DecidableEq, Repr

/-- validate_tweet_content of guardrails/content_validator.py: an empty or
blank tweet fails with the single reason Tweet is empty; otherwise a
length error is recorded for tweets over 280 characters, the external
LLM collaborator is consulted, an exception from it yields the fail-closed
result (False, [Validation error message]) discarding the accumulated
length error, and on success the off-topic, inappropriateness, concern and
low-confidence findings are appended; the tweet is valid iff the error
list is empty. -/
def validate_tweet_content (tweet topic_category : String)
    (collab : Except String ContentValidationResult) : Bool × List String :=
  if pyBlank tweet then (false, ["Tweet is empty"])
  else
    let lengthErrors :=
      if 280 < tweet.length then
        ["Tweet exceeds 280 characters: " ++ toString tweet.length]
      else []
    match collab with
    | .error e => (false, ["Validation error: " ++ e])
    | .ok r =>
      let errors := lengthErrors
        ++ (if r.is_on_topic then []
            else ["Content is off-topic. Detected: " ++ r.detected_category
                  ++ ", Expected: " ++ topic_category])
        ++ (if r.is_appropriate then [] else ["Content flagged as inappropriate"])
        ++ r.concerns
        ++ (if r.confidence < 5 then
              ["Low confidence in content quality: " ++ toString r.confidence ++ "/10"]
            else [])
      (errors.isEmpty, errors)

/-- The single-quote character, used by the Python repr of a string. -/
def singleQuote : Char := Char.ofNat 39

/-- The double-quote character, used by the Python repr of a string that
contains a single quote but no double quote. -/
def doubleQuote : Char := Char.ofNat 34

/-- Lower-case hexadecimal digit, as in the Python backslash-x escape. -/
def hexDigitChar (n : Nat) : Char :=
  if n < 10 then Char.ofNat (48 + n) else Char.ofNat (87 + n)

/-- Python repr rendering of one character inside a string quoted with q:
the backslash and the quote character are backslash-escaped, newline,
carriage return and tab use their letter escapes, the remaining control
characters (and delete) use the backslash-x escape, and every other
character is kept as-is (as repr keeps printable text). -/
def pyReprChar (q c : Char) : String :=
  if c = Char.ofNat 92 then "\\\\"
  else if c = q then "\\" ++ String.singleton q
  else if c = Char.ofNat 10 then "\\n"
  else if c = Char.ofNat 13 then "\\r"
  else if c = Char.ofNat 9 then "\\t"
  else if c.toNat < 32 || c.toNat == 127 then
    "\\x" ++ String.mk [hexDigitChar (c.toNat / 16), hexDigitChar (c.toNat % 16)]
  else String.singleton c

/-- Python repr of a string: quoted with a single quote, except that a
string containing a single quote and no double quote is quoted with
double quotes; the content is escaped character by character. -/
def pyRepr (s : String) : String :=
  let q := if s.data.contains singleQuote && !(s.data.contains doubleQuote)
           then doubleQuote else singleQuote
  String.singleton q ++ String.join (s.data.map (pyReprChar q)) ++ String.singleton q

/-- Python repr of a list of strings, as rendered by an f-string:
the element reprs, comma separated, in square brackets. -/
def pyListRepr (xs : List String) : String :=
  "[" ++ String.intercalate ", " (xs.map pyRepr) ++ "]"

/-- The message appended by validate_content when the moderation layer
fails: the f-string Moderation flags: followed by the flag-list repr. -/
def moderationMessage (flags : List String) : String :=
  "Moderation flags: " ++ pyListRepr flags

/-- The partial state update returned by the validate_content node. -/
structure ValidateUpdate where
  is_safe : Bool
  safety_checks : List (String × Bool)
  validation_errors : List String
deriving DecidableEq, Repr

/-- validate_content of graph.py, parameterised by the outcomes of the
three registered checkers (topic validation, moderation, keyword
blocklist), which the node always runs in that order with no
short-circuiting.  Starting from the validation errors already in the
state, the failing checkers contribute their reasons in registration
order: the topic errors, one formatted moderation-flags message, and the
keyword matches.  is_safe is the conjunction of the three verdicts. -/
def validate_content (prior : List String)
    (topic moderation keyword : Bool × List String) : ValidateUpdate :=
  let errors1 := prior ++ (if topic.1 then [] else topic.2)
  let errors2 := errors1 ++ (if moderation.1 then [] else [moderationMessage moderation.2])
  let errors3 := errors2 ++ (if keyword.1 then [] else keyword.2)
  { is_safe := topic.1 && moderation.1 && keyword.1,
    safety_checks := [("topic_validation", topic.1),
                      ("moderation_check", moderation.1),
                      ("keyword_filter", keyword.1)],
    validation_errors := errors3 }

/-- The three possible targets of the conditional edge after
validate_content: post_content, regenerate_tweet, or END. -/
inductive Route where
  | post_content
  | regenerate_tweet
  | abort
deriving DecidableEq, Repr

/-- MAX_REGENERATION_ATTEMPTS of graph.py. -/
def MAX_REGENERATION_ATTEMPTS : Nat := 3

/-- The marker text counted by the retry controller. -/
def regenMarker : String := "Regeneration attempt"

/-- The attempt count of graph.py: the number of validation errors that
contain the text Regeneration attempt as a substring. -/
def regenCount (errors : List String) : Nat :=
  (errors.filter fun e => occursIn regenMarker.data e.data).length

/-- should_post_or_regenerate of graph.py: post when safe; otherwise
regenerate while the attempt count is below MAX_REGENERATION_ATTEMPTS,
and abort (route to END) once it reaches it. -/
def should_post_or_regenerate (is_safe : Bool)
    (validation_errors : List String) : Route :=
  if is_safe then .post_content
  else if regenCount validation_errors < MAX_REGENERATION_ATTEMPTS then .regenerate_tweet
  else .abort

/-- The partial state update returned by the regenerate_tweet node. -/
structure RegenerateUpdate where
  validation_errors : List String
  is_safe : Bool
deriving DecidableEq, Repr

/-- regenerate_tweet of graph.py: the node returns the partial update
holding the single fresh marker Regeneration attempt N (with N one more
than the current attempt count) and is_safe reset to false. -/
def regenerate_tweet (validation_errors : List String) : RegenerateUpdate :=
  { validation_errors :=
      ["Regeneration attempt " ++ toString (regenCount validation_errors + 1)],
    is_safe := false }

/-- The reducer of WorkflowState.validation_errors
(states/workflow_state.py): the field is annotated with operator.add, so
a partial update returned by a node is appended to the current value,
not substituted for it. -/
def applyValidationErrors (old update : List String) : List String :=
  old ++ update

/-- The validation_errors field of the workflow state after the
regenerate_tweet node has run, as the graph applies it: the node output
passed through the operator.add reducer. -/
def validationErrorsAfterRegenerate (old : List String) : List String :=
  applyValidationErrors old (regenerate_tweet old).validation_errors

/-- One record written to the tweet audit log (log_tweet of
tools/x_poster.py). -/
structure LogEntry where
  tweet_text : String
  tweet_id : Option String
  status : String
  topic : String
deriving DecidableEq, Repr

/-- An observable side effect of the posting tool: an audit-log write or
a live create_tweet call on the X client. -/
inductive PostEffect where
  | auditLog (entry : LogEntry)
  | createTweet (text : String)
deriving DecidableEq, Repr

/-- The result string of a post_tweet invocation together with the side
effects it performs, in order. -/
structure PostOutcome where
  result : String
  effects : List PostEffect
deriving DecidableEq, Repr

/-- The rejection message of post_tweet for an over-long tweet. -/
def tooLongMessage (n : Nat) : String :=
  "Tweet too long: " ++ toString n ++ " characters (max 280)"

/-- The f-string rendering of an optional tweet id (Python str of None
is the text None). -/
def pyOptStr (o : Option String) : String :=
  match o with
  | some s => s
  | none => "None"

/-- post_tweet of tools/x_poster.py, with the dry-run flag and the live
X client modelled explicitly (the oracle gives the optional tweet id of
a successful create_tweet, or the exception text).  The length check
comes first and short-circuits everything; the dry-run check comes next
and skips the live call; otherwise the live call is attempted and its
success or failure is logged. -/
def post_tweet (tweet_text topic : String) (dry_run : Bool)
    (live : Except String (Option String)) : PostOutcome :=
  if 280 < tweet_text.length then
    { result := tooLongMessage tweet_text.length,
      effects := [.auditLog { tweet_text := tweet_text, tweet_id := none,
                              status := "rejected", topic := topic }] }
  else if dry_run then
    { result := "[DRY RUN] Tweet logged but not posted:" ++ "\n\n" ++ tweet_text,
      effects := [.auditLog { tweet_text := tweet_text, tweet_id := some "DRY_RUN",
                              status := "dry_run", topic := topic }] }
  else
    match live with
    | .ok id? =>
      { result := "Tweet posted successfully! Tweet ID: " ++ pyOptStr id?,
        effects := [.createTweet tweet_text,
                    .auditLog { tweet_text := tweet_text, tweet_id := id?,
                                status := "posted", topic := topic }] }
    | .error e =>
      { result := "Failed to post tweet: " ++ e,
        effects := [.createTweet tweet_text,
                    .auditLog { tweet_text := tweet_text, tweet_id := none,
                                status := "failed", topic := topic }] }

/-- The number of live create_tweet calls among the effects. -/
def liveCalls (effects : List PostEffect) : Nat :=
  (effects.filter fun e =>
    match e with
    | .createTweet _ => true
    | .auditLog _ => false).length

/-- The number of audit-log entries among the effects. -/
def auditEntries (effects : List PostEffect) : Nat :=
  (effects.filter fun e =>
    match e with
    | .createTweet _ => false
    | .auditLog _ => true).length

/-- The partial state update returned by the discover_topic node. -/
structure DiscoverUpdate where
  selected_topic : String
  topic_category : String
  topic_context : String
deriving DecidableEq, Repr

/-- The answer of the trend-discovery collaborator: the optional fields
read from its result dictionary with result.get. -/
structure DiscoveryAgentResult where
  selected_topic : Option String
  topic_category : Option String
  topic_context : Option String
deriving DecidableEq, Repr

/-- The fallback update hard-coded in the except branch of
discover_topic in graph.py. -/
def fallbackDiscoverUpdate : DiscoverUpdate :=
  { selected_topic := "The latest developments in AI agents",
    topic_category := "ai",
    topic_context := "Explore recent advances in AI agent technology" }

/-- discover_topic of graph.py: on success the fields of the
collaborator result (with the defaults of result.get), and on an
exception from the collaborator the hard-coded fallback update. -/
def discover_topic (collab : Except String DiscoveryAgentResult) : DiscoverUpdate :=
  match collab with
  | .ok r =>
    { selected_topic := r.selected_topic.getD "",
      topic_category := r.topic_category.getD "ai",
      topic_context := r.topic_context.getD "" }
  | .error _ => fallbackDiscoverUpdate

/-- The static edges of the workflow graph built at the bottom of
graph.py (the conditional edge after validate_content is
should_post_or_regenerate). -/
def workflow_edges : List (String × String) :=
  [ ("START", "discover_topic"),
    ("discover_topic", "research_topic"),
    ("research_topic", "generate_tweet"),
    ("generate_tweet", "validate_content"),
    ("regenerate_tweet", "generate_tweet"),
    ("post_content", "END") ]

/-! ## Helper lemmas -/

/-- A whitespace character is unchanged by lower-casing. -/
lemma pyIsSpace_toLower (c : Char) (h : pyIsSpace c = true) : c.toLower = c := by
  unfold pyIsSpace at h
  simp only [Bool.or_eq_true, decide_eq_true_eq] at h
  rcases h with ((((h | h) | h) | h) | h) | h <;> subst h <;> decide

/-- Every character of a list that matches at the front of another list
is a member of that list. -/
lemma startsWithList_subset : ∀ (p t : List Char), startsWithList p t = true →
    ∀ c ∈ p, c ∈ t := by
  intro p
  induction p with
  | nil => intro t _ c hc; simp at hc
  | cons p0 ps ih =>
    intro t h c hc
    cases t with
    | nil => simp [startsWithList] at h
    | cons t0 ts =>
      simp only [startsWithList, Bool.and_eq_true, decide_eq_true_eq] at h
      rcases List.mem_cons.mp hc with hc0 | hcs
      · subst hc0; rw [h.1]; exact List.mem_cons_self t0 ts
      · exact List.mem_cons_of_mem t0 (ih ts h.2 c hcs)

/-- Every character of a list that occurs contiguously in another list
is a member of that list. -/
lemma occursIn_subset : ∀ (p t : List Char), occursIn p t = true → ∀ c ∈ p, c ∈ t := by
  intro p t
  induction t with
  | nil =>
    intro h c hc
    cases p with
    | nil => simp at hc
    | cons _ _ => simp [occursIn, startsWithList] at h
  | cons t0 ts ih =>
    intro h c hc
    rw [occursIn, Bool.or_eq_true] at h
    rcases h with h1 | h2
    · exact startsWithList_subset p _ h1 c hc
    · exact List.mem_cons_of_mem t0 (ih h2 c hc)

/-- Matching at the front is preserved by extending the text on the right. -/
lemma startsWithList_append : ∀ (p t u : List Char), startsWithList p t = true →
    startsWithList p (t ++ u) = true := by
  intro p
  induction p with
  | nil => intro t u _; rfl
  | cons p0 ps ih =>
    intro t u h
    cases t with
    | nil => simp [startsWithList] at h
    | cons t0 ts =>
      simp only [startsWithList, Bool.and_eq_true] at h
      simp only [List.cons_append, startsWithList, Bool.and_eq_true]
      exact ⟨h.1, ih ts u h.2⟩

/-- Front matching fails when the first characters differ. -/
lemma startsWithList_cons_ne (p0 t0 : Char) (ps ts : List Char) (h : p0 ≠ t0) :
    startsWithList (p0 :: ps) (t0 :: ts) = false := by
  simp [startsWithList, h]

/-- The word list is non-empty and its first character is not whitespace
even after lower-casing.  All blocklist words satisfy this. -/
def headNonSpaceLower : List Char → Bool
  | [] => false
  | c :: _ => !pyIsSpace c.toLower

/-- Every alternation word of every blocklist pattern starts with a
non-whitespace character. -/
lemma patternWordsOk :
    (BLOCKED_PATTERNS.all fun pat => pat.words.all fun w => headNonSpaceLower w.data) = true := by
  decide

/-- Every blocked phrase contains a non-whitespace character after
lower-casing. -/
lemma phrasesOk :
    (BLOCKED_PHRASES.all fun p => (lowerList p.data).any fun c => !pyIsSpace c) = true := by
  decide

/-- A word starting with a non-whitespace character is never found in a
text that consists of whitespace characters only. -/
lemma searchWord_space (w : List Char) (hw : headNonSpaceLower w = true) :
    ∀ (t : List Char), (∀ c ∈ t, pyIsSpace c = true) → ∀ prev, searchWord w prev t = false := by
  intro t
  induction t with
  | nil => intro _ _; rfl
  | cons c ts ih =>
    intro ht prev
    have hc : pyIsSpace c = true := ht c (List.mem_cons_self c ts)
    have hts : ∀ x ∈ ts, pyIsSpace x = true := fun x hx => ht x (List.mem_cons_of_mem c hx)
    have hwh : wordHere w (c :: ts) = false := by
      cases w with
      | nil => simp [headNonSpaceLower] at hw
      | cons w0 ws =>
        have hw2 : pyIsSpace w0.toLower = false := by
          simpa [headNonSpaceLower] using hw
        have hne : ¬ (w0.toLower = c.toLower) := by
          intro heq
          rw [pyIsSpace_toLower c hc] at heq
          rw [heq, hc] at hw2
          exact Bool.true_eq_false.mp hw2
        simp [wordHere, matchEnd, hne]
    simp [searchWord, hwh, ih hts (wordChar c)]

/-- A report that is among the collected matches of a non-empty text is in
the output of check_keyword_blocklist, and makes the verdict not-clean. -/
lemma check_keyword_blocklist_mem (text msg : String) (hne : text.data ≠ [])
    (hmem : msg ∈ (BLOCKED_PATTERNS.filterMap fun pat =>
        if patternSearch pat text.data then some ("Pattern: " ++ pat.raw) else none) ++
      (BLOCKED_PHRASES.filterMap fun p =>
        if occursIn (lowerList p.data) (lowerList text.data)
        then some ("Phrase: " ++ p) else none)) :
    (check_keyword_blocklist text).1 = false ∧ msg ∈ (check_keyword_blocklist text).2 := by
  have hE : text.data.isEmpty = false := List.isEmpty_eq_false.mpr hne
  simp only [check_keyword_blocklist, hE, Bool.false_eq_true, if_false]
  exact ⟨List.isEmpty_eq_false.mpr (List.ne_nil_of_mem hmem), hmem⟩

/-! ## Claim theorems -/

/-- C1: for every value of is_safe and every validation_errors list, the
retry decision function routes to post_content whenever is_safe is true;
otherwise it routes to regenerate_tweet when the number of entries
containing the text Regeneration attempt is below
MAX_REGENERATION_ATTEMPTS (3), and to END when that count has reached
MAX_REGENERATION_ATTEMPTS. -/
theorem should_post_or_regenerate_spec (is_safe : Bool) (validation_errors : List String) :
    (is_safe = true →
      should_post_or_regenerate is_safe validation_errors = Route.post_content) ∧
    (is_safe = false → regenCount validation_errors < MAX_REGENERATION_ATTEMPTS →
      should_post_or_regenerate is_safe validation_errors = Route.regenerate_tweet) ∧
    (is_safe = false → MAX_REGENERATION_ATTEMPTS ≤ regenCount validation_errors →
      should_post_or_regenerate is_safe validation_errors = Route.abort) := by
  refine ⟨fun h => ?_, fun h hlt => ?_, fun h hge => ?_⟩
  · simp [should_post_or_regenerate, h]
  · simp [should_post_or_regenerate, h, hlt]
  · simp [should_post_or_regenerate, h, Nat.not_lt.mpr hge]

/-- Witness for C1: the three routes at concrete inputs. -/
theorem should_post_or_regenerate_spec_w :
    should_post_or_regenerate true [] = Route.post_content ∧
    should_post_or_regenerate false ["Regeneration attempt 1"] = Route.regenerate_tweet ∧
    should_post_or_regenerate false
      ["Regeneration attempt 1", "Regeneration attempt 2", "Regeneration attempt 3"]
      = Route.abort :=
  ⟨(should_post_or_regenerate_spec true []).1 rfl,
   (should_post_or_regenerate_spec false ["Regeneration attempt 1"]).2.1 rfl (by decide),
   (should_post_or_regenerate_spec false
      ["Regeneration attempt 1", "Regeneration attempt 2", "Regeneration attempt 3"]).2.2
      rfl (by decide)⟩

/-- C2: the regenerate_tweet node does return the single fresh marker as
its partial update, but the validation_errors channel of the workflow
state carries the operator.add reducer, so the graph appends the marker
to the prior errors instead of replacing them: at the concrete state
below, the post-step field has two elements and keeps the prior detailed
reason, refuting the claimed replacement. -/
theorem regenerate_tweet_accumulates :
    regenerate_tweet ["Content flagged as inappropriate"] =
      { validation_errors := ["Regeneration attempt 1"], is_safe := false } ∧
    validationErrorsAfterRegenerate ["Content flagged as inappropriate"] =
      ["Content flagged as inappropriate", "Regeneration attempt 1"] ∧
    (validationErrorsAfterRegenerate ["Content flagged as inappropriate"]).length ≠ 1 := by
  refine ⟨by decide, by decide, by decide⟩

/-- C3: the validate_content node records all three checker verdicts (no
short-circuiting), is safe exactly when all three passed, and appends to
the prior errors the failing checkers' reasons in registration order:
the topic errors, then the single moderation-flags message, then the
keyword matches. -/
theorem validate_content_spec (prior tErrs mFlags kErrs : List String) (t m k : Bool) :
    (validate_content prior (t, tErrs) (m, mFlags) (k, kErrs)).is_safe = (t && m && k) ∧
    (validate_content prior (t, tErrs) (m, mFlags) (k, kErrs)).safety_checks =
      [("topic_validation", t), ("moderation_check", m), ("keyword_filter", k)] ∧
    (validate_content prior (t, tErrs) (m, mFlags) (k, kErrs)).validation_errors =
      prior ++ (if t then [] else tErrs)
            ++ (if m then [] else [moderationMessage mFlags])
            ++ (if k then [] else kErrs) :=
  ⟨rfl, rfl, rfl⟩

/-- C3 counterexample: when only the moderation layer fails, with the two
flags hate and spam, the resulting failure-reason list is not the
concatenation of the failing checkers' individual reasons (which would
be the two flag entries): it is the single aggregated entry formatting
the whole flag list. -/
theorem validate_content_not_flagwise :
    (validate_content [] (true, []) (false, ["hate", "spam"]) (true, [])).validation_errors ≠
      ["hate", "spam"] ∧
    (validate_content [] (true, []) (false, ["hate", "spam"]) (true, [])).validation_errors =
      ["Moderation flags: " ++ pyListRepr ["hate", "spam"]] :=
  ⟨by decide, by decide⟩

/-- C4: for every content string that contains a configured blocked
phrase as a case-insensitive substring, or that matches a configured
blocked pattern (a case-insensitive word-boundary search for one of its
alternation words), check_keyword_blocklist reports not-clean and its
report list contains the entry naming that phrase, respectively the raw
source of that pattern. -/
theorem check_keyword_blocklist_blocks (text : String) :
    (∀ p ∈ BLOCKED_PHRASES,
      occursIn (lowerList p.data) (lowerList text.data) = true →
      (check_keyword_blocklist text).1 = false ∧
      ("Phrase: " ++ p) ∈ (check_keyword_blocklist text).2) ∧
    (∀ pat ∈ BLOCKED_PATTERNS,
      patternSearch pat text.data = true →
      (check_keyword_blocklist text).1 = false ∧
      ("Pattern: " ++ pat.raw) ∈ (check_keyword_blocklist text).2) := by
  constructor
  · intro p hp hocc
    have hne : text.data ≠ [] := by
      intro hnil
      have hany := List.all_eq_true.mp phrasesOk p hp
      rcases List.any_eq_true.mp hany with ⟨c, hcmem, _⟩
      have : c ∈ lowerList text.data := occursIn_subset _ _ hocc c hcmem
      rw [hnil] at this
      simp [lowerList] at this
    refine check_keyword_blocklist_mem text _ hne (List.mem_append_right _ ?_)
    exact List.mem_filterMap.mpr ⟨p, hp, by rw [if_pos hocc]⟩
  · intro pat hpat hsearch
    have hne : text.data ≠ [] := by
      intro hnil
      rw [hnil] at hsearch
      rcases List.any_eq_true.mp hsearch with ⟨w, _, hw⟩
      exact Bool.false_ne_true hw
    refine check_keyword_blocklist_mem text _ hne (List.mem_append_left _ ?_)
    exact List.mem_filterMap.mpr ⟨pat, hpat, by rw [if_pos hsearch]⟩

/-- Witness for C4: a phrase hit and a pattern hit at concrete texts. -/
theorem check_keyword_blocklist_blocks_w :
    ((check_keyword_blocklist "some fake news today").1 = false ∧
      ("Phrase: " ++ "fake news") ∈ (check_keyword_blocklist "some fake news today").2) ∧
    ((check_keyword_blocklist "Vote now").1 = false ∧
      ("Pattern: " ++ "\\b(politic|politician|election|vote|voting|ballot|campaign|democrat|republican|liberal|conservative)\\b")
        ∈ (check_keyword_blocklist "Vote now").2) :=
  ⟨(check_keyword_blocklist_blocks "some fake news today").1 "fake news"
      (by decide) (by decide),
   (check_keyword_blocklist_blocks "Vote now").2
      { raw := "\\b(politic|politician|election|vote|voting|ballot|campaign|democrat|republican|liberal|conservative)\\b",
        words := ["politic", "politician", "election", "vote", "voting", "ballot",
                  "campaign", "democrat", "republican", "liberal", "conservative"] }
      (by decide) (by decide)⟩

/-- C5: for every tweet text longer than 280 characters, post_tweet
returns the rejection message and performs no live create_tweet call (in
both dry-run and live mode); the only side effect is the rejected
audit-log entry. -/
theorem post_tweet_rejects_overlong (tweet_text topic : String) (dry_run : Bool)
    (live : Except String (Option String)) (h : 280 < tweet_text.length) :
    post_tweet tweet_text topic dry_run live =
      { result := tooLongMessage tweet_text.length,
        effects := [PostEffect.auditLog { tweet_text := tweet_text, tweet_id := none,
                                          status := "rejected", topic := topic }] } ∧
    liveCalls (post_tweet tweet_text topic dry_run live).effects = 0 := by
  have he : post_tweet tweet_text topic dry_run live =
      { result := tooLongMessage tweet_text.length,
        effects := [PostEffect.auditLog { tweet_text := tweet_text, tweet_id := none,
                                          status := "rejected", topic := topic }] } := by
    simp [post_tweet, h]
  exact ⟨he, by rw [he]; rfl⟩

/-- Witness for C5: a 281-character tweet is rejected without a live call. -/
theorem post_tweet_rejects_overlong_w :
    post_tweet (String.mk (List.replicate 281 'a')) "ai" true (Except.ok (some "1")) =
      { result := tooLongMessage (String.mk (List.replicate 281 'a')).length,
        effects := [PostEffect.auditLog
          { tweet_text := String.mk (List.replicate 281 'a'), tweet_id := none,
            status := "rejected", topic := "ai" }] } ∧
    liveCalls (post_tweet (String.mk (List.replicate 281 'a')) "ai" true
      (Except.ok (some "1"))).effects = 0 := by
  apply post_tweet_rejects_overlong (String.mk (List.replicate 281 'a')) "ai" true
    (Except.ok (some "1"))
  show 280 < (List.replicate 281 'a').length
  rw [List.length_replicate]
  omega

/-- C6: for every tweet text of length at most 280, a dry-run invocation
of post_tweet performs no live create_tweet call, returns a result
tagged with the [DRY RUN] marker (which no live-mode result carries),
and appends exactly one audit-log entry, so two invocations on the same
content yield two audit entries and zero live posts. -/
theorem post_tweet_dry_run_spec (tweet_text topic : String)
    (live : Except String (Option String)) (h : tweet_text.length ≤ 280) :
    startsWithList ("[DRY RUN]").data
      (post_tweet tweet_text topic true live).result.data = true ∧
    auditEntries (post_tweet tweet_text topic true live).effects = 1 ∧
    liveCalls (post_tweet tweet_text topic true live).effects = 0 ∧
    auditEntries ((post_tweet tweet_text topic true live).effects ++
                  (post_tweet tweet_text topic true live).effects) = 2 ∧
    liveCalls ((post_tweet tweet_text topic true live).effects ++
               (post_tweet tweet_text topic true live).effects) = 0 ∧
    (∀ r : Except String (Option String),
      startsWithList ("[DRY RUN]").data
        (post_tweet tweet_text topic false r).result.data = false) := by
  have hnot : ¬ 280 < tweet_text.length := Nat.not_lt.mpr h
  have hd : post_tweet tweet_text topic true live =
      { result := "[DRY RUN] Tweet logged but not posted:" ++ "\n\n" ++ tweet_text,
        effects := [.auditLog { tweet_text := tweet_text, tweet_id := some "DRY_RUN",
                                status := "dry_run", topic := topic }] } := by
    simp [post_tweet, hnot]
  refine ⟨?_, ?_, ?_, ?_, ?_, ?_⟩
  · rw [hd]
    show startsWithList ("[DRY RUN]").data
      ((("[DRY RUN] Tweet logged but not posted:" ++ "\n\n") ++ tweet_text).data) = true
    rw [String.data_append]
    exact startsWithList_append _ _ _ (by decide)
  · rw [hd]; rfl
  · rw [hd]; rfl
  · rw [hd]; rfl
  · rw [hd]; rfl
  · intro r
    cases r with
    | ok id? =>
      have hl : post_tweet tweet_text topic false (Except.ok id?) =
          { result := "Tweet posted successfully! Tweet ID: " ++ pyOptStr id?,
            effects := [.createTweet tweet_text,
                        .auditLog { tweet_text := tweet_text, tweet_id := id?,
                                    status := "posted", topic := topic }] } := by
        simp [post_tweet, hnot]
      rw [hl]
      show startsWithList ("[DRY RUN]").data
        (("Tweet posted successfully! Tweet ID: " ++ pyOptStr id?).data) = false
      rw [String.data_append]
      have h1 : ("Tweet posted successfully! Tweet ID: " : String).data =
          'T' :: ("weet posted successfully! Tweet ID: " : String).data := by decide
      have h2 : ("[DRY RUN]" : String).data = '[' :: ("DRY RUN]" : String).data := by decide
      rw [h1, h2, List.cons_append]
      exact startsWithList_cons_ne _ _ _ _ (by decide)
    | error e =>
      have hl : post_tweet tweet_text topic false (Except.error e) =
          { result := "Failed to post tweet: " ++ e,
            effects := [.createTweet tweet_text,
                        .auditLog { tweet_text := tweet_text, tweet_id := none,
                                    status := "failed", topic := topic }] } := by
        simp [post_tweet, hnot]
      rw [hl]
      show startsWithList ("[DRY RUN]").data (("Failed to post tweet: " ++ e).data) = false
      rw [String.data_append]
      have h1 : ("Failed to post tweet: " : String).data =
          'F' :: ("ailed to post tweet: " : String).data := by decide
      have h2 : ("[DRY RUN]" : String).data = '[' :: ("DRY RUN]" : String).data := by decide
      rw [h1, h2, List.cons_append]
      exact startsWithList_cons_ne _ _ _ _ (by decide)

/-- Witness for C6: a concrete short tweet in dry-run mode. -/
theorem post_tweet_dry_run_spec_w :
    startsWithList ("[DRY RUN]").data
      (post_tweet "hello" "ai" true (Except.ok (some "9"))).result.data = true ∧
    auditEntries (post_tweet "hello" "ai" true (Except.ok (some "9"))).effects = 1 ∧
    liveCalls (post_tweet "hello" "ai" true (Except.ok (some "9"))).effects = 0 ∧
    startsWithList ("[DRY RUN]").data
      (post_tweet "hello" "ai" false (Except.ok (some "9"))).result.data = false := by
  have h := post_tweet_dry_run_spec "hello" "ai" (Except.ok (some "9")) (by decide)
  exact ⟨h.1, h.2.1, h.2.2.1, h.2.2.2.2.2 (Except.ok (some "9"))⟩

/-- C7: when the external collaborator of the moderation validator or of
the topic validator raises, and the text is not blank (so the
collaborator is actually consulted), each validator returns the
fail-closed result: not-passed with the single non-empty reason carrying
the error text; no exception escapes (both functions are total). -/
theorem validators_fail_closed (text topic_category e : String)
    (hb : pyBlank text = false) :
    check_content_safety text (Except.error e) =
      (false, ["moderation_error: " ++ e]) ∧
    (check_content_safety text (Except.error e)).2 ≠ [] ∧
    validate_tweet_content text topic_category (Except.error e) =
      (false, ["Validation error: " ++ e]) ∧
    (validate_tweet_content text topic_category (Except.error e)).2 ≠ [] := by
  have h1 : check_content_safety text (Except.error e) =
      (false, ["moderation_error: " ++ e]) := by
    simp [check_content_safety, hb]
  have h2 : validate_tweet_content text topic_category (Except.error e) =
      (false, ["Validation error: " ++ e]) := by
    simp [validate_tweet_content, hb]
  exact ⟨h1, by rw [h1]; simp, h2, by rw [h2]; simp⟩

/-- Witness for C7: a concrete non-blank text with a raising collaborator. -/
theorem validators_fail_closed_w :
    check_content_safety "hello" (Except.error "timeout") =
      (false, ["moderation_error: " ++ "timeout"]) ∧
    (check_content_safety "hello" (Except.error "timeout")).2 ≠ [] ∧
    validate_tweet_content "hello" "ai" (Except.error "timeout") =
      (false, ["Validation error: " ++ "timeout"]) ∧
    (validate_tweet_content "hello" "ai" (Except.error "timeout")).2 ≠ [] :=
  validators_fail_closed "hello" "ai" "timeout" (by decide)

/-- C8: check_keyword_blocklist is a deterministic pure function of its
argument: identical inputs yield identical (passed, reasons) outputs (in
this embedding the source performs no input or output and mutates no
state, so it denotes a function), and check_all_filters returns exactly
its result. -/
theorem check_keyword_blocklist_pure (t u : String) (h : t = u) :
    check_keyword_blocklist t = check_keyword_blocklist u ∧
    check_all_filters t = check_keyword_blocklist t :=
  ⟨by rw [h], rfl⟩

/-- Witness for C8: determinism at a concrete input. -/
theorem check_keyword_blocklist_pure_w :
    check_keyword_blocklist "AI agents are great" = check_keyword_blocklist "AI agents are great" ∧
    check_all_filters "AI agents are great" = check_keyword_blocklist "AI agents are great" :=
  check_keyword_blocklist_pure "AI agents are great" "AI agents are great" rfl

/-- C9: when the trend-discovery collaborator raises, discover_topic
returns the configured fallback update, whose topic, category and
context are all non-empty, and the static graph edges carry the pipeline
on from Discover through Research and Draft to Validate. -/
theorem discover_topic_fallback (e : String) :
    discover_topic (Except.error e) = fallbackDiscoverUpdate ∧
    fallbackDiscoverUpdate.selected_topic ≠ "" ∧
    fallbackDiscoverUpdate.topic_category ≠ "" ∧
    fallbackDiscoverUpdate.topic_context ≠ "" ∧
    ("discover_topic", "research_topic") ∈ workflow_edges ∧
    ("research_topic", "generate_tweet") ∈ workflow_edges ∧
    ("generate_tweet", "validate_content") ∈ workflow_edges :=
  ⟨rfl, by decide, by decide, by decide, by decide, by decide, by decide⟩

/-- C10: for every empty or whitespace-only content string, the keyword
blocklist checker and the moderation checker both pass with no reasons,
while the topic validator rejects it with the single reason
Tweet is empty, so overall validation of an empty draft still fails. -/
theorem blank_content_validation (text topic_category : String)
    (m : Except String ModerationCheck) (v : Except String ContentValidationResult)
    (h : ∀ c ∈ text.data, pyIsSpace c = true) :
    check_keyword_blocklist text = (true, []) ∧
    check_content_safety text m = (true, []) ∧
    validate_tweet_content text topic_category v = (false, ["Tweet is empty"]) := by
  have hblank : pyBlank text = true := List.all_eq_true.mpr h
  refine ⟨?_, by simp [check_content_safety, hblank], by simp [validate_tweet_content, hblank]⟩
  rcases hdata : text.data with _ | ⟨c0, cs⟩
  · simp [check_keyword_blocklist, hdata]
  · have hE : text.data.isEmpty = false := by rw [hdata]; rfl
    have hpat : (BLOCKED_PATTERNS.filterMap fun pat =>
        if patternSearch pat text.data then some ("Pattern: " ++ pat.raw) else none) = [] := by
      refine List.filterMap_eq_nil_iff.mpr fun pat hpat => ?_
      rw [if_neg]
      intro hsearch
      rcases List.any_eq_true.mp hsearch with ⟨w, hw, hsw⟩
      have hok : headNonSpaceLower w.data = true :=
        List.all_eq_true.mp (List.all_eq_true.mp patternWordsOk pat hpat) w hw
      rw [searchWord_space w.data hok text.data h false] at hsw
      exact Bool.false_ne_true hsw
    have hphr : (BLOCKED_PHRASES.filterMap fun p =>
        if occursIn (lowerList p.data) (lowerList text.data)
        then some ("Phrase: " ++ p) else none) = [] := by
      refine List.filterMap_eq_nil_iff.mpr fun p hp => ?_
      rw [if_neg]
      intro hocc
      rcases List.any_eq_true.mp (List.all_eq_true.mp phrasesOk p hp) with ⟨c, hcmem, hcns⟩
      have hct : c ∈ lowerList text.data := occursIn_subset _ _ hocc c hcmem
      rcases List.mem_map.mp hct with ⟨c1, hc1, hlow⟩
      have hsp : pyIsSpace c1 = true := h c1 hc1
      rw [pyIsSpace_toLower c1 hsp] at hlow
      rw [← hlow, hsp] at hcns
      exact Bool.false_ne_true hcns
    simp [check_keyword_blocklist, hE, hpat, hphr]

/-- Witness for C10: a whitespace-only draft. -/
theorem blank_content_validation_w :
    check_keyword_blocklist "  " = (true, []) ∧
    check_content_safety "  " (Except.error "down") = (true, []) ∧
    validate_tweet_content "  " "ai" (Except.error "down") = (false, ["Tweet is empty"]) :=
  blank_content_validation "  " "ai" (Except.error "down") (Except.error "down") (by decide)

end SocialEngager
